import Mathlib

/-!
Verification development for the messenger frontend core: the inbox,
messages and user store slices, the key-casing utilities, the service
layer error normalization, and the component-level choreography
(send handlers and the search debounce effect).

Each definition is a shallow embedding of the corresponding JavaScript
in the repository; JS-specific behaviors (truthiness, the `||` operator,
out-of-range string indexing yielding undefined, Redux Toolkit thunk
promises resolving on both fulfillment and rejection) are modelled
explicitly where the embedded code relies on them.
-/

namespace Messenger

/-- JS truthiness of a string-or-undefined value: undefined and the empty
string are falsy. -/
def jsTruthyS : Option String → Bool
  | none => false
  | some s => s ≠ ""

/-- JS `a || b` on string-or-undefined values. -/
def jsOrS (a b : Option String) : Option String :=
  if jsTruthyS a then a else b

/-- JS `a || b` on number-or-undefined values (0 and undefined are falsy). -/
def jsOrN (a b : Option Nat) : Option Nat :=
  match a with
  | some n => if n ≠ 0 then some n else b
  | none => b

/-- JS `p < x` where `x` is number-or-undefined: comparison with undefined
is false. -/
def jsLtOpt (p : Nat) (x : Option Nat) : Bool :=
  match x with
  | some m => p < m
  | none => false

/-- An ASCII whitespace character, for trimming. -/
def isJsSpace (c : Char) : Bool :=
  c = ' ' || c = '\t' || c = '\n' || c = '\r'

/-- JS `s.trim()` (on the ASCII fragment): strip whitespace from both
ends. -/
def jsTrim (s : String) : String :=
  String.mk (((s.data.dropWhile isJsSpace).reverse.dropWhile isJsSpace).reverse)

/-- One inbox row, as produced by the service layer.  The reducers read
both the camelCase spelling `withUser` and the snake_case spelling
`with_user` of the peer field (`withUserSnake` here models the latter),
and `updateLastMessage` writes the `last_message` key. -/
structure InboxEntry where
  id : Nat
  withUser : Option String
  withUserSnake : Option String
  last_message : Option String
  unreadCount : Nat
deriving DecidableEq, Repr

/-- State of the inbox slice (`inboxSlice.js` initialState). `selectedUser`
is a JS string-or-undefined value (the reducer can assign `undefined` to it
via `withUser || with_user`). -/
structure InboxState where
  list : List InboxEntry
  selectedUser : Option String
  loading : Bool
  hasMore : Bool
  pageNumber : Nat
  searchQuery : String
  error : Option String
deriving DecidableEq, Repr

/-- `inboxSlice` initial state. -/
def inboxInitialState : InboxState :=
  { list := [], selectedUser := some "", loading := false, hasMore := false,
    pageNumber := 1, searchQuery := "", error := none }

/-- Payload of a successful inbox list fetch: the service returns
`{results, num_pages}` and the reducer tolerates both `numPages` and
`num_pages` spellings of the page count. -/
structure InboxFetchData where
  results : List InboxEntry
  numPages : Option Nat
  num_pages : Option Nat
deriving DecidableEq, Repr

/-- The `fetchInboxList.fulfilled` case of `inboxSlice.js`: for page 1 the
list is replaced and `selectedUser` is set to
`data.results[0].withUser || data.results[0].with_user` whenever
`data.results.length` is truthy (non-zero), else kept; for later pages the
results are appended.  `hasMore` is `pageNumber < (numPages || num_pages)`
in both cases and `loading` is cleared. -/
def fetchInboxListFulfilled (s : InboxState) (data : InboxFetchData)
    (pageNumber : Nat) : InboxState :=
  if pageNumber = 1 then
    { s with
      list := data.results
      selectedUser :=
        match data.results with
        | [] => s.selectedUser
        | e :: _ => jsOrS e.withUser e.withUserSnake
      hasMore := jsLtOpt pageNumber (jsOrN data.numPages data.num_pages)
      loading := false }
  else
    { s with
      list := s.list ++ data.results
      hasMore := jsLtOpt pageNumber (jsOrN data.numPages data.num_pages)
      loading := false }

/-- The `last_message` preview text computed by `updateLastMessage`:
the body is cut to its first 30 characters followed by "..." when longer
than 30, else kept verbatim. -/
def previewText (message : String) : String :=
  if message.length > 30 then (message.take 30) ++ "..." else message

/-- The `updateLastMessage` reducer of `inboxSlice.js`: every list item
whose peer matches (`item.with_user === username || item.withUser ===
username`, JS strict equality, so `undefined === undefined` holds) gets its
`last_message` set to the ellipsized body; other items are untouched.  The
`username` argument is the JS string-or-undefined `selectedUser` value the
caller passes. -/
def updateLastMessage (s : InboxState) (username : Option String)
    (message : String) : InboxState :=
  { s with
    list := s.list.map fun item =>
      if item.withUserSnake = username || item.withUser = username then
        { item with last_message := some (previewText message) }
      else item }

/-- The `updateInboxList` reducer of `inboxSlice.js`: drop every existing
entry whose id occurs in the update, then prepend the updated entries in
their given order. -/
def updateInboxList (s : InboxState) (updatedInbox : List InboxEntry) :
    InboxState :=
  let updatedInboxIds := updatedInbox.map (fun inbox => inbox.id)
  { s with
    list := updatedInbox ++
      s.list.filter (fun inbox => !(updatedInboxIds.contains inbox.id)) }

/-- The `createGroupMessages.fulfilled` case: same merge as
`updateInboxList`, plus a success toast. -/
def createGroupMessagesFulfilled (s : InboxState)
    (updatedInbox : List InboxEntry) : InboxState × List String :=
  let updatedInboxIds := updatedInbox.map (fun inbox => inbox.id)
  ({ s with
     list := updatedInbox ++
       s.list.filter (fun inbox => !(updatedInboxIds.contains inbox.id)) },
   ["Messages sent successfully"])

/-- The `createGroupMessages.rejected` case: error toast, state unchanged. -/
def createGroupMessagesRejected (s : InboxState) : InboxState × List String :=
  (s, ["Failed to send messages"])

/-- One conversation message.  The optimistic prepend in the new-message
modal writes the snake_case `sender_img` key; the field name follows that
spelling. -/
structure Message where
  id : Option Nat
  sender : String
  sender_img : String
  created : String
  message : String
deriving DecidableEq, Repr

/-- State of the messages slice (`messagesSlice.js` initialState). -/
structure MessagesState where
  list : List Message
  loading : Bool
  hasMore : Bool
  pageNumber : Nat
  error : Option String
  isReplying : Bool
  currentMessage : String
deriving DecidableEq, Repr

/-- `messagesSlice` initial state. -/
def messagesInitialState : MessagesState :=
  { list := [], loading := false, hasMore := false, pageNumber := 1,
    error := none, isReplying := false, currentMessage := "" }

/-- The `addMessageToList` reducer: prepend a message to the list. -/
def addMessageToList (s : MessagesState) (m : Message) : MessagesState :=
  { s with list := m :: s.list }

/-- The `resetMessages` reducer. -/
def resetMessages (s : MessagesState) : MessagesState :=
  { s with
    list := [], pageNumber := 1, hasMore := false
    isReplying := false, currentMessage := "" }

/-- The `createMessage.fulfilled` case: success toast, prepend the
server-returned message, clear the draft and the replying flag. -/
def createMessageFulfilled (s : MessagesState) (m : Message) :
    MessagesState × List String :=
  ({ s with list := m :: s.list, currentMessage := "", isReplying := false },
   ["Message sent successfully"])

/-- The `createMessage.rejected` case: error toast, state unchanged (in
particular the draft `currentMessage` is preserved). -/
def createMessageRejected (s : MessagesState) : MessagesState × List String :=
  (s, ["Failed to send message"])

/-- Models `handleSendMessage` of the Conversation component together with
the slice cases its dispatches trigger.  `outcome` is the result of the
`createMessage` service call.  A Redux Toolkit thunk promise resolves with
the final action on both fulfillment and rejection (rejection is routed
through `rejectWithValue`), so the `.then` continuation — which dispatches
`updateLastMessage` with the captured `selectedUser` and pre-send
`currentMessage` — runs on the failure path as well.  Returns the new
inbox state, the new messages state, and the toasts emitted. -/
def handleSendMessage (inbox : InboxState) (messages : MessagesState)
    (outcome : Except String Message) :
    InboxState × MessagesState × List String :=
  if jsTrim messages.currentMessage = "" then (inbox, messages, [])
  else
    let stepped :=
      match outcome with
      | .ok m => createMessageFulfilled messages m
      | .error _ => createMessageRejected messages
    let inbox2 := updateLastMessage inbox inbox.selectedUser
      messages.currentMessage
    (inbox2, stepped.1, stepped.2)

/-- A user-search result row as stored by the user slice: `id` and
`username` are both the username. -/
structure UserSearchResult where
  id : String
  username : String
deriving DecidableEq, Repr

/-- The `currentUser` record of the user slice. -/
structure CurrentUser where
  username : String
  name : String
  profileName : String
  hasProfileImage : Bool
  profileImage : String
deriving DecidableEq, Repr

/-- Models `handleSubmit` of the new-message modal together with the slice
cases its dispatches trigger.  `outcome` is the result of the
`createGroupMessages` service call (the request body uses the ids of
`selectedUsers` as receivers; the call itself is abstracted by `outcome`).
As with `handleSendMessage`, the `.then` continuation runs on both
fulfillment and rejection of the dispatched thunk, so the optimistic
prepend (when the selected peer is among the chosen users), the form
reset and the `clearSearchResults` dispatch are not gated on success.
Returns the new inbox state, the new messages state, the new
search-results list, and the toasts emitted. -/
def handleSubmit (inbox : InboxState) (messages : MessagesState)
    (searchResults : List UserSearchResult) (groupMessage : String)
    (selectedUsers : List UserSearchResult) (currentUser : CurrentUser)
    (outcome : Except String (List InboxEntry)) :
    InboxState × MessagesState × List UserSearchResult × List String :=
  if jsTrim groupMessage = "" || selectedUsers.isEmpty then
    (inbox, messages, searchResults, [])
  else
    let stepped :=
      match outcome with
      | .ok updatedInbox => createGroupMessagesFulfilled inbox updatedInbox
      | .error _ => createGroupMessagesRejected inbox
    let isConversationOpened :=
      selectedUsers.any (fun user => some user.username = inbox.selectedUser)
    let messages2 :=
      if isConversationOpened then
        addMessageToList messages
          { id := none, sender := currentUser.username,
            sender_img := currentUser.profileImage, created := "now",
            message := groupMessage }
      else messages
    (stepped.1, messages2, [], stepped.2)

/-- JS `s.split(sep)` on a character list: `"".split(sep) = [""]`, and
separators at the ends produce empty parts, exactly as in JS. -/
def splitOnChar (sep : Char) : List Char → List (List Char)
  | [] => [[]]
  | c :: rest =>
    let r := splitOnChar sep rest
    if c = sep then [] :: r
    else
      match r with
      | [] => [[c]]
      | w :: ws => (c :: w) :: ws

/-- JS template-literal rendering of a character-or-undefined value:
`undefined` renders as the string "undefined". -/
def jsTemplateChar : Option Char → String
  | some c => String.singleton c
  | none => "undefined"

/-- The initials derivation in `fetchUserProfile.fulfilled` of
`userSlice.js`: the template literal
username[0] followed by (split(1) truthy ? its first char :
(username[1] || empty)).  No uppercasing is applied, and a
single-character username falls through to the empty second half via
the JS or-guard. -/
def profileNameOf (username : String) : String :=
  let cs := username.data
  let parts := splitOnChar ' ' cs
  let secondPart :=
    match parts.get? 1 with
    | some w =>
      if w.isEmpty then
        match cs.get? 1 with
        | some c => String.singleton c
        | none => ""
      else jsTemplateChar w.head?
    | none =>
      match cs.get? 1 with
      | some c => String.singleton c
      | none => ""
  jsTemplateChar cs.head? ++ secondPart

/-- State of the user slice (`userSlice.js` initialState). -/
structure UserState where
  currentUser : CurrentUser
  searchResults : List UserSearchResult
  loading : Bool
  error : Option String
deriving DecidableEq, Repr

/-- A user row as returned by the user-search endpoint. -/
structure ApiUser where
  username : String
deriving DecidableEq, Repr

/-- The request issued by the `searchUsers` thunk via
`fetchUsersService(query)`: an unconditional GET to `user/?search=query`
(base URL abstracted).  `none` would mean no network call; the thunk body
has no empty-query guard, so the result is always `some`. -/
def searchUsersThunkRequest (query : String) : Option String :=
  some ("user/?search=" ++ query)

/-- The `searchUsers.fulfilled` case: project the returned users down to
`{id: username, username}` pairs and clear loading. -/
def searchUsersFulfilled (s : UserState) (results : List ApiUser) :
    UserState :=
  { s with
    searchResults := results.map (fun user =>
      { id := user.username, username := user.username }),
    loading := false }

/-- `handleSearch` of the new-message modal: dispatch `searchUsers(query)`
only when `query` is truthy (non-empty).  Returns the query dispatched,
or `none` when nothing is dispatched. -/
def handleSearch (query : String) : Option String :=
  if query ≠ "" then some query else none

/-- The network request resulting from a modal search interaction: the
guard in `handleSearch` composed with the thunk request. -/
def handleSearchRequest (query : String) : Option String :=
  match handleSearch query with
  | some q => searchUsersThunkRequest q
  | none => none

/-- The list-level content of `updateInboxList` (and of the identical merge
in `createGroupMessages.fulfilled`): drop existing entries whose id occurs
in the update, then prepend the updated entries in order. -/
def mergeEntries (updatedInbox list : List InboxEntry) : List InboxEntry :=
  updatedInbox ++
    list.filter (fun inbox =>
      !((updatedInbox.map (fun i => i.id)).contains inbox.id))

/-- A sequence of `mergeEntries` calls applied to a starting list, earliest
call first. -/
def applyMerges (batches : List (List InboxEntry))
    (l : List InboxEntry) : List InboxEntry :=
  batches.foldl (fun acc b => mergeEntries b acc) l

/- ## Key Transform Utility (`data/utils.js`) -/

mutual
/-- A JS value as seen by `modifyObjectKeys`: scalars are returned
unchanged, arrays are mapped, and plain objects get their keys
transformed. -/
inductive JSValue where
  | nullv
  | undefv
  | boolv (b : Bool)
  | numv (n : Int)
  | strv (s : String)
  | arrv (items : JSArr)
  | objv (fields : JSObj)
/-- A JS array. -/
inductive JSArr where
  | nil
  | cons (hd : JSValue) (tl : JSArr)
/-- A JS plain object: an insertion-ordered sequence of key/value
properties (JS objects cannot hold a key twice). -/
inductive JSObj where
  | nil
  | cons (key : String) (val : JSValue) (tl : JSObj)
end

/-- JS property assignment `o[k] = v`: overwrite in place when the key is
already present, else append at the end (JS insertion order). -/
def jsInsertObj : JSObj → String → JSValue → JSObj
  | .nil, k, v => .cons k v .nil
  | .cons k0 v0 tl, k, v =>
    if k0 = k then .cons k0 v tl else .cons k0 v0 (jsInsertObj tl k v)

/-- Word characters for the ASCII fragment of lodash word splitting:
letters and digits; every other character separates words. -/
def isWordChar (c : Char) : Bool := c.isAlphanum

/-- Split a character list into maximal runs of word characters, dropping
separator characters. -/
def alnumRuns (cur : List Char) : List Char → List (List Char)
  | [] => if cur.isEmpty then [] else [cur.reverse]
  | c :: rest =>
    if isWordChar c then alnumRuns (c :: cur) rest
    else if cur.isEmpty then alnumRuns [] rest
    else cur.reverse :: alnumRuns [] rest

/-- A camel-hump word boundary between adjacent word characters `a` and
`b` (with `nxt` the character after `b`), as in lodash: lower→upper,
letter↔digit, and the last upper of an acronym before a capitalized word
(upper,upper,lower). -/
def humpBoundary (a b : Char) (nxt : Option Char) : Bool :=
  (a.isLower && b.isUpper) ||
  (a.isDigit && b.isAlpha) || (a.isAlpha && b.isDigit) ||
  (a.isUpper && b.isUpper &&
    (match nxt with | some c => c.isLower | none => false))

/-- Split one run of word characters at camel-hump boundaries. -/
def humpSplit (cur : List Char) : List Char → List (List Char)
  | [] => [cur.reverse]
  | b :: rest =>
    match cur with
    | [] => humpSplit [b] rest
    | a :: _ =>
      if humpBoundary a b rest.head? then
        cur.reverse :: humpSplit [b] rest
      else humpSplit (b :: cur) rest

/-- lodash `words` on the ASCII fragment: alphanumeric runs split at
camel-hump boundaries. -/
def wordsOf (s : String) : List (List Char) :=
  (alnumRuns [] s.data).flatMap (humpSplit [])

/-- Lowercase a word. -/
def lowerWord (w : List Char) : List Char := w.map Char.toLower

/-- lodash `capitalize`: lowercase the word, then uppercase its first
character. -/
def capitalizeWord (w : List Char) : List Char :=
  match lowerWord w with
  | [] => []
  | c :: rest => Char.toUpper c :: rest

/-- lodash `camelCase` on the ASCII fragment: first word lowercased, later
words capitalized, concatenated. -/
def camelCaseS (s : String) : String :=
  match wordsOf s with
  | [] => ""
  | w :: ws => String.mk (lowerWord w ++ (ws.map capitalizeWord).flatten)

/-- lodash `snakeCase` on the ASCII fragment: words lowercased and joined
with underscores. -/
def snakeCaseS (s : String) : String :=
  String.mk (List.intercalate [Char.ofNat 95] ((wordsOf s).map lowerWord))

mutual
/-- `modifyObjectKeys(object, modify)` from `data/utils.js`: `undefined`,
`null` and non-objects are returned unchanged, arrays are mapped
recursively, and for an object a fresh result object is built by assigning
`result[modify(key)] = recurse(value)` for each property in order. -/
def modifyObjectKeys (modify : String → String) : JSValue → JSValue
  | .arrv items => .arrv (modifyArr modify items)
  | .objv fields => .objv (buildObj modify .nil fields)
  | v => v
/-- The array branch of `modifyObjectKeys`. -/
def modifyArr (modify : String → String) : JSArr → JSArr
  | .nil => .nil
  | .cons v tl => .cons (modifyObjectKeys modify v) (modifyArr modify tl)
/-- The object branch of `modifyObjectKeys`: the `forEach` loop assigning
into the accumulated result object. -/
def buildObj (modify : String → String) (acc : JSObj) : JSObj → JSObj
  | .nil => acc
  | .cons k v tl =>
    buildObj modify (jsInsertObj acc (modify k) (modifyObjectKeys modify v)) tl
end

/-- `camelCaseObject` from `data/utils.js` (the outer-casing transform). -/
def camelCaseObject (v : JSValue) : JSValue := modifyObjectKeys camelCaseS v

/-- `snakeCaseObject` from `data/utils.js` (the inner-casing transform). -/
def snakeCaseObject (v : JSValue) : JSValue := modifyObjectKeys snakeCaseS v

/-- Concatenation of two objects (no key collision handling; used only to
describe `buildObj` runs whose inserted keys are fresh). -/
def objAppend : JSObj → JSObj → JSObj
  | .nil, o => o
  | .cons k v tl, o => .cons k v (objAppend tl o)

/-- Entrywise transform of an object: `f` on keys, `g` on values,
preserving order and never collapsing entries. -/
def objMapKV (f : String → String) (g : JSValue → JSValue) : JSObj → JSObj
  | .nil => .nil
  | .cons k v tl => .cons (f k) (g v) (objMapKV f g tl)

/-- The keys of an object, in insertion order. -/
def keysOf : JSObj → List String
  | .nil => []
  | .cons k _ tl => k :: keysOf tl

/-- The top-level key list of a value (empty for non-objects); used to
state key-level facts about the casing round-trip. -/
def topKeys : JSValue → List String
  | .objv o => keysOf o
  | _ => []

/-- Boolean duplicate-freedom of a key list. -/
def nodupB : List String → Bool
  | [] => true
  | k :: ks => (!ks.contains k) && nodupB ks

mutual
/-- Keys of `v` are round-trip safe: at every object node the snake_cased
keys are pairwise distinct (so no two properties collapse) and each key is
a fixed point of camelCase-after-snakeCase. -/
def goodVal : JSValue → Bool
  | .arrv items => goodArr items
  | .objv fields => nodupB ((keysOf fields).map snakeCaseS) && goodFields fields
  | _ => true
/-- `goodVal` for every element of an array. -/
def goodArr : JSArr → Bool
  | .nil => true
  | .cons v tl => goodVal v && goodArr tl
/-- Each key a camelCase∘snakeCase fixed point and each value good. -/
def goodFields : JSObj → Bool
  | .nil => true
  | .cons k v tl => (camelCaseS (snakeCaseS k) == k) && goodVal v && goodFields tl
end

/- ## API Gateway error normalization (`data/service.js`) -/

/-- A failure as delivered to a service `.catch` handler:
`responseData` is `some d` when `error.response` exists and
`error.response.data` is truthy (so it holds `d`), else `none`. -/
structure JSError where
  message : String
  responseData : Option JSValue

/-- The error object a service operation re-raises: either the original
failure (`processedData = none`) or a derived object carrying the
processed payload. -/
structure ThrownError where
  base : JSError
  processedData : Option JSValue

/-- `typeof error.response.data === 'object'` for a truthy `data`: plain
objects and arrays qualify (null is already excluded by truthiness). -/
def isStructuredData : Option JSValue → Bool
  | some (.objv _) => true
  | some (.arrv _) => true
  | _ => false

/-- `processAndThrowError` from `data/service.js`: with a structured
response payload, throw a derived error carrying
`processedData = errorDataProcessor(data)`; otherwise re-throw the
original error. -/
def processAndThrowError (error : JSError)
    (errorDataProcessor : JSValue → JSValue) : ThrownError :=
  match error.responseData with
  | some d =>
    match d with
    | .objv o => { base := error, processedData := some (errorDataProcessor (.objv o)) }
    | .arrv a => { base := error, processedData := some (errorDataProcessor (.arrv a)) }
    | _ => { base := error, processedData := none }
  | none => { base := error, processedData := none }

/-- The remote operations of `data/service.js`. -/
inductive ApiOperation where
  | createMessage
  | createGroupMessages
  | updateUnreadCount
  | fetchInboxList
  | fetchSelectedInboxMessages
  | fetchUsers
  | getAccount
deriving DecidableEq, Repr

/-- The failure path of each service operation: the six messenger
endpoints attach `.catch((error) => processAndThrowError(error,
camelCaseObject))`; `getAccountService` has no catch handler and re-raises
the original failure unconditionally. -/
def serviceFailure : ApiOperation → JSError → ThrownError
  | .getAccount, error => { base := error, processedData := none }
  | _, error => processAndThrowError error camelCaseObject

/- ## Inbox search debounce effect (`components/Inbox.jsx`) -/

/-- One dispatched `fetchInboxList` call, tagged with the time it was
issued. -/
structure FetchCall where
  time : Nat
  pageNumber : Nat
  searchQuery : String
deriving DecidableEq, Repr

/-- Interpreter for the search-debounce effect of `Inbox.jsx` under the
single-threaded event-loop model.  `events` are the successive values of
`searchQuery` with their (strictly increasing) times; `pending` is the
armed debounce timer (fire time and query), and `pageNumber` the page
state read by the empty-query branch.  On each query change the previous
effect's cleanup cancels a still-pending timer; a timer whose fire time
has already passed fires first.  A non-empty query arms a 500 ms timer
whose firing dispatches `resetPageNumber` then `fetchInboxList(1, query)`;
an empty query on page 1 dispatches `fetchInboxList(1, '')` immediately.
Returns every fetch dispatched, in order. -/
def runSearchEffect (pending : Option (Nat × String))
    (pageNumber : Nat) : List (Nat × String) → List FetchCall
  | [] =>
    match pending with
    | some (ft, q) => [{ time := ft, pageNumber := 1, searchQuery := q }]
    | none => []
  | (t, q) :: rest =>
    let fired : List FetchCall :=
      match pending with
      | some (ft, pq) =>
        if ft ≤ t then [{ time := ft, pageNumber := 1, searchQuery := pq }]
        else []
      | none => []
    if q ≠ "" then
      fired ++ runSearchEffect (some (t + 500, q)) pageNumber rest
    else if pageNumber = 1 then
      fired ++ ({ time := t, pageNumber := 1, searchQuery := "" } :: runSearchEffect none pageNumber rest)
    else
      fired ++ runSearchEffect none pageNumber rest

/- ## Concrete sample data (used to instantiate the theorems) -/

/-- An inbox row for peer "bob" with an unread message. -/
def bobEntry : InboxEntry :=
  { id := 1, withUser := some "bob", withUserSnake := none,
    last_message := some "old text", unreadCount := 2 }

/-- An inbox row for peer "carol". -/
def carolEntry : InboxEntry :=
  { id := 2, withUser := some "carol", withUserSnake := none,
    last_message := none, unreadCount := 0 }

/-- An inbox state whose selected peer is already "alice". -/
def aliceSelectedState : InboxState :=
  { inboxInitialState with selectedUser := some "alice", list := [bobEntry] }

/-- An inbox state with "bob" selected and bob's row in the list. -/
def bobSelectedState : InboxState :=
  { inboxInitialState with selectedUser := some "bob", list := [bobEntry] }

/-- A page-1 fetch payload whose first (only) result is bob's row. -/
def bobFetchData : InboxFetchData :=
  { results := [bobEntry], numPages := some 1, num_pages := none }

/-- A messages state holding a non-empty draft. -/
def draftMessagesState : MessagesState :=
  { messagesInitialState with currentMessage := "hi", isReplying := true }

/-- A current-user record for "alice". -/
def sampleCurrentUser : CurrentUser :=
  { username := "alice", name := "alice", profileName := "al",
    hasProfileImage := false, profileImage := "" }

/-- A user-search row selecting "bob" as a group recipient. -/
def bobUserSel : UserSearchResult := { id := "bob", username := "bob" }

/-- A user-slice state with empty search results. -/
def sampleUserState : UserState :=
  { currentUser := sampleCurrentUser, searchResults := [], loading := false,
    error := none }

/-- A failure whose response body is a structured (object) payload. -/
def sampleJSError : JSError :=
  { message := "Request failed with status code 400",
    responseData := some (.objv (.cons "error_code" (.strv "invalid") .nil)) }

/-- A nested value whose keys are all camelCase spellings. -/
def goodSample : JSValue :=
  .objv (.cons "withUser" (.strv "bob")
    (.cons "lastMessage" (.objv (.cons "unreadCount" (.numv 2) .nil))
      (.cons "items"
        (.arrv (.cons (.objv (.cons "numPages" (.numv 1) .nil)) .nil)) .nil)))

/-- A value with a key already in snake_case spelling. -/
def snakeKeySample : JSValue := .objv (.cons "with_user" (.numv 1) .nil)

/- ## Helper lemmas -/

theorem objAppend_nil : ∀ (o : JSObj), objAppend o .nil = o
  | .nil => rfl
  | .cons k v tl => congrArg (JSObj.cons k v) (objAppend_nil tl)

theorem objAppend_assoc : ∀ (a b c : JSObj),
    objAppend (objAppend a b) c = objAppend a (objAppend b c)
  | .nil, _, _ => rfl
  | .cons k v tl, b, c => congrArg (JSObj.cons k v) (objAppend_assoc tl b c)

theorem keysOf_objAppend : ∀ (a b : JSObj),
    keysOf (objAppend a b) = keysOf a ++ keysOf b
  | .nil, _ => rfl
  | .cons k v tl, b => by
    simp [objAppend, keysOf, keysOf_objAppend tl b]

theorem keysOf_objMapKV (f : String → String) (g : JSValue → JSValue) :
    ∀ (o : JSObj), keysOf (objMapKV f g o) = (keysOf o).map f
  | .nil => rfl
  | .cons k v tl => by
    simp [objMapKV, keysOf, keysOf_objMapKV f g tl]

theorem jsInsertObj_fresh : ∀ (acc : JSObj) (k : String) (v : JSValue),
    k ∉ keysOf acc → jsInsertObj acc k v = objAppend acc (.cons k v .nil)
  | .nil, _, _, _ => rfl
  | .cons k0 v0 tl, k, v, h => by
    simp only [keysOf, List.mem_cons, not_or] at h
    simp only [jsInsertObj, objAppend]
    rw [if_neg (fun e => h.1 e.symm)]
    exact congrArg (JSObj.cons k0 v0) (jsInsertObj_fresh tl k v h.2)

theorem nodupB_iff : ∀ (ks : List String), nodupB ks = true ↔ ks.Nodup := by
  intro ks
  induction ks with
  | nil => simp [nodupB]
  | cons k ks ih => simp [nodupB, List.nodup_cons, ih]

theorem mergeEntries_eq (b l : List InboxEntry) :
    mergeEntries b l =
      b ++ l.filter (fun e => !((b.map (fun i => i.id)).contains e.id)) := rfl

theorem mergeEntries_ids_nodup (b l : List InboxEntry)
    (hb : (b.map (fun e => e.id)).Nodup)
    (hl : (l.map (fun e => e.id)).Nodup) :
    ((mergeEntries b l).map (fun e => e.id)).Nodup := by
  rw [mergeEntries_eq, List.map_append]
  refine List.Nodup.append hb (List.Nodup.sublist ((List.filter_sublist l).map _) hl) ?_
  intro x hxb hxf
  obtain ⟨e, he, rfl⟩ := List.mem_map.mp hxf
  have hp := (List.mem_filter.mp he).2
  simp at hp
  obtain ⟨a, ha, hae⟩ := List.mem_map.mp hxb
  exact hp a ha hae

theorem applyMerges_nil (l : List InboxEntry) : applyMerges [] l = l := rfl

theorem applyMerges_cons (b : List InboxEntry)
    (batches : List (List InboxEntry)) (l : List InboxEntry) :
    applyMerges (b :: batches) l = applyMerges batches (mergeEntries b l) := rfl

theorem applyMerges_ids_nodup :
    ∀ (batches : List (List InboxEntry)) (l : List InboxEntry),
    (∀ b ∈ batches, (b.map (fun e => e.id)).Nodup) →
    (l.map (fun e => e.id)).Nodup →
    ((applyMerges batches l).map (fun e => e.id)).Nodup := by
  intro batches
  induction batches with
  | nil => intro l _ hl; exact hl
  | cons b batches ih =>
    intro l hb hl
    rw [applyMerges_cons]
    exact ih _ (fun x hx => hb x (List.mem_cons_of_mem b hx))
      (mergeEntries_ids_nodup b l (hb b (List.mem_cons_self b batches)) hl)

theorem applyMerges_concat (batches : List (List InboxEntry))
    (b : List InboxEntry) (l : List InboxEntry) :
    applyMerges (batches ++ [b]) l =
      b ++ (applyMerges batches l).filter
        (fun e => !((b.map (fun i => i.id)).contains e.id)) := by
  simp [applyMerges, List.foldl_append, mergeEntries]

theorem buildObj_eq (f : String → String) :
    ∀ (o acc : JSObj), ((keysOf o).map f).Nodup →
      (∀ k ∈ keysOf o, f k ∉ keysOf acc) →
      buildObj f acc o = objAppend acc (objMapKV f (modifyObjectKeys f) o)
  | .nil, acc, _, _ => by
    simp [buildObj, objMapKV, objAppend_nil]
  | .cons k v tl, acc, hnd, hfresh => by
    simp only [buildObj, objMapKV]
    have hk0 : f k ∉ keysOf acc := hfresh k (by simp [keysOf])
    rw [jsInsertObj_fresh acc (f k) (modifyObjectKeys f v) hk0]
    have hnd' : (f k :: (keysOf tl).map f).Nodup := by simpa [keysOf] using hnd
    obtain ⟨hknotin, hndtl⟩ := List.nodup_cons.mp hnd'
    have hfresh2 : ∀ k2 ∈ keysOf tl,
        f k2 ∉ keysOf (objAppend acc (.cons (f k) (modifyObjectKeys f v) .nil)) := by
      intro k2 hk2
      rw [keysOf_objAppend]
      intro hmem
      rcases List.mem_append.mp hmem with hin | hin
      · exact hfresh k2 (by simp [keysOf, hk2]) hin
      · have he : f k2 = f k := by simpa [keysOf] using hin
        exact hknotin (he ▸ List.mem_map_of_mem f hk2)
    rw [buildObj_eq f tl _ hndtl hfresh2, objAppend_assoc]
    rfl

theorem goodFields_fixpoint : ∀ (o : JSObj), goodFields o = true →
    ∀ k ∈ keysOf o, camelCaseS (snakeCaseS k) = k
  | .nil, _, k, hk => absurd hk (by simp [keysOf])
  | .cons k0 v tl, h, k, hk => by
    have h' : (camelCaseS (snakeCaseS k0) = k0 ∧ goodVal v = true) ∧
        goodFields tl = true := by simpa [goodFields] using h
    obtain ⟨⟨hfix, _⟩, htl⟩ := h'
    have hk' : k = k0 ∨ k ∈ keysOf tl := by simpa [keysOf] using hk
    rcases hk' with rfl | hk2
    · exact hfix
    · exact goodFields_fixpoint tl htl k hk2

mutual
theorem roundVal : ∀ (v : JSValue), goodVal v = true →
    modifyObjectKeys camelCaseS (modifyObjectKeys snakeCaseS v) = v
  | .nullv, _ => rfl
  | .undefv, _ => rfl
  | .boolv _, _ => rfl
  | .numv _, _ => rfl
  | .strv _, _ => rfl
  | .arrv a, h => by
    have ha : goodArr a = true := by simpa [goodVal] using h
    show JSValue.arrv (modifyArr camelCaseS (modifyArr snakeCaseS a)) = .arrv a
    exact congrArg JSValue.arrv (roundArr a ha)
  | .objv o, h => by
    have h' : nodupB ((keysOf o).map snakeCaseS) = true ∧ goodFields o = true := by
      simpa [goodVal] using h
    obtain ⟨hnd, hf⟩ := h'
    have hsn : ((keysOf o).map snakeCaseS).Nodup := (nodupB_iff _).mp hnd
    have horig : (keysOf o).Nodup := List.Nodup.of_map snakeCaseS hsn
    have hfix : ∀ k ∈ keysOf o, camelCaseS (snakeCaseS k) = k :=
      goodFields_fixpoint o hf
    show JSValue.objv (buildObj camelCaseS .nil (buildObj snakeCaseS .nil o)) =
      .objv o
    rw [buildObj_eq snakeCaseS o .nil hsn (by intro k _ hmem; simp [keysOf] at hmem)]
    show JSValue.objv (buildObj camelCaseS .nil
      (objMapKV snakeCaseS (modifyObjectKeys snakeCaseS) o)) = .objv o
    have hnd2 : ((keysOf (objMapKV snakeCaseS (modifyObjectKeys snakeCaseS) o)).map
        camelCaseS).Nodup := by
      rw [keysOf_objMapKV, List.map_map]
      have e1 : (keysOf o).map (camelCaseS ∘ snakeCaseS) = keysOf o :=
        (List.map_congr_left (fun k hk => hfix k hk)).trans (List.map_id _)
      rw [e1]; exact horig
    rw [buildObj_eq camelCaseS _ .nil hnd2 (by intro k _ hmem; simp [keysOf] at hmem)]
    show JSValue.objv (objMapKV camelCaseS (modifyObjectKeys camelCaseS)
      (objMapKV snakeCaseS (modifyObjectKeys snakeCaseS) o)) = .objv o
    exact congrArg JSValue.objv (roundFields o hf)
theorem roundArr : ∀ (a : JSArr), goodArr a = true →
    modifyArr camelCaseS (modifyArr snakeCaseS a) = a
  | .nil, _ => rfl
  | .cons v tl, h => by
    have h' : goodVal v = true ∧ goodArr tl = true := by simpa [goodArr] using h
    obtain ⟨hv, htl⟩ := h'
    simp only [modifyArr]
    rw [roundVal v hv, roundArr tl htl]
theorem roundFields : ∀ (o : JSObj), goodFields o = true →
    objMapKV camelCaseS (modifyObjectKeys camelCaseS)
      (objMapKV snakeCaseS (modifyObjectKeys snakeCaseS) o) = o
  | .nil, _ => rfl
  | .cons k v tl, h => by
    have h' : (camelCaseS (snakeCaseS k) = k ∧ goodVal v = true) ∧
        goodFields tl = true := by simpa [goodFields] using h
    obtain ⟨⟨hfix, hv⟩, htl⟩ := h'
    simp only [objMapKV]
    rw [hfix, roundVal v hv, roundFields tl htl]
end

theorem profileNameOf_single (c : Char) :
    profileNameOf (String.singleton c) = String.singleton c := by
  by_cases hc : c = ' '
  · subst hc; rfl
  · show profileNameOf (String.mk [c]) = String.mk [c]
    simp [profileNameOf, splitOnChar, hc, jsTemplateChar]
    rfl

/- ## Claims -/

/-- Claim C1 (amended): on a successful page-1 inbox load, `items` is
replaced by the fetched results, and `selectedUser` is set to the first
result's peer (`withUser || with_user`) whenever the results are
non-empty — even when a peer is already selected; it is kept only when the
results are empty. -/
theorem C1_theorem (s : InboxState) (data : InboxFetchData) (e : InboxEntry)
    (rest : List InboxEntry) (h : data.results = e :: rest) :
    (fetchInboxListFulfilled s data 1).list = data.results ∧
    (fetchInboxListFulfilled s data 1).selectedUser =
      jsOrS e.withUser e.withUserSnake := by
  unfold fetchInboxListFulfilled
  simp [h]

/-- Claim C1 witness: the theorem applied to a concrete state with peer
"alice" already selected and a page-1 result for "bob". -/
theorem C1_witness :
    bobFetchData.results = bobEntry :: [] ∧
    ((fetchInboxListFulfilled aliceSelectedState bobFetchData 1).list =
        bobFetchData.results ∧
      (fetchInboxListFulfilled aliceSelectedState bobFetchData 1).selectedUser =
        jsOrS bobEntry.withUser bobEntry.withUserSnake) :=
  ⟨rfl, C1_theorem aliceSelectedState bobFetchData bobEntry [] rfl⟩

/-- Claim C1 counterexample: with "alice" selected (a set, truthy peer), a
successful page-1 load whose first result is "bob" overwrites the
selection, contradicting the claim that a held `selectedPeer` is left
unchanged. -/
theorem C1_counterexample :
    jsTruthyS aliceSelectedState.selectedUser = true ∧
    (fetchInboxListFulfilled aliceSelectedState bobFetchData 1).selectedUser ≠
      aliceSelectedState.selectedUser := by
  decide

/-- Claim C2 (amended): the profile-load initials keep the username's own
case and do not repeat the first letter: "ada lovelace" gives "al", "a"
gives "a", "bob" gives "bo"; every single-character username maps to
itself (no indexing past the string). -/
theorem C2_theorem :
    profileNameOf "ada lovelace" = "al" ∧ profileNameOf "a" = "a" ∧
    profileNameOf "bob" = "bo" ∧
    ∀ c : Char, profileNameOf (String.singleton c) = String.singleton c :=
  ⟨by decide, by decide, by decide, profileNameOf_single⟩

/-- Claim C2 counterexample: the initials derived by the user-profile
reducer are not the uppercased/repeated ones the claim states. -/
theorem C2_counterexample :
    profileNameOf "a" ≠ "AA" ∧ profileNameOf "ada lovelace" ≠ "AL" ∧
    profileNameOf "bob" ≠ "BO" := by
  decide

/-- Claim C3 (amended): with a non-empty trimmed draft, the inbox preview
for the selected peer is patched with the (ellipsized) draft body whenever
the send settles — on success and on failure alike, because the dispatched
thunk promise resolves in both cases; on success the returned message is
prepended and the draft cleared, on failure the failure is reported via
toast and the draft is preserved for retry. -/
theorem C3_theorem (inbox : InboxState) (messages : MessagesState)
    (outcome : Except String Message)
    (h : jsTrim messages.currentMessage ≠ "") :
    (handleSendMessage inbox messages outcome).1 =
      updateLastMessage inbox inbox.selectedUser messages.currentMessage ∧
    (∀ m, outcome = .ok m →
      (handleSendMessage inbox messages outcome).2.1 =
        { messages with
          list := m :: messages.list
          currentMessage := "", isReplying := false } ∧
      (handleSendMessage inbox messages outcome).2.2 =
        ["Message sent successfully"]) ∧
    (∀ e, outcome = .error e →
      (handleSendMessage inbox messages outcome).2.1 = messages ∧
      (handleSendMessage inbox messages outcome).2.2 =
        ["Failed to send message"]) := by
  unfold handleSendMessage
  rw [if_neg h]
  refine ⟨by cases outcome <;> rfl, ?_, ?_⟩
  · intro m hm; subst hm; exact ⟨rfl, rfl⟩
  · intro e he; subst he; exact ⟨rfl, rfl⟩

/-- Claim C3 witness: the theorem applied to a failing send of the draft
"hi" to selected peer "bob": the preview is patched, the draft kept. -/
theorem C3_witness :
    jsTrim draftMessagesState.currentMessage ≠ "" ∧
    (handleSendMessage bobSelectedState draftMessagesState
        (.error "Network Error")).1 =
      updateLastMessage bobSelectedState bobSelectedState.selectedUser
        draftMessagesState.currentMessage ∧
    (handleSendMessage bobSelectedState draftMessagesState
        (.error "Network Error")).2.1 = draftMessagesState :=
  ⟨by decide,
   (C3_theorem bobSelectedState draftMessagesState
      (.error "Network Error") (by decide)).1,
   ((C3_theorem bobSelectedState draftMessagesState
      (.error "Network Error") (by decide)).2.2 "Network Error" rfl).1⟩

/-- Claim C3 counterexample: a send that fails still patches bob's inbox
preview with the draft body, contradicting the claim that no preview
patch occurs on failure. -/
theorem C3_counterexample :
    (handleSendMessage bobSelectedState draftMessagesState
        (.error "Network Error")).2.2 = ["Failed to send message"] ∧
    (handleSendMessage bobSelectedState draftMessagesState
        (.error "Network Error")).1.list =
      [{ bobEntry with last_message := some "hi" }] ∧
    bobSelectedState.list ≠
      [{ bobEntry with last_message := some "hi" }] := by
  decide

/-- Claim C4 (amended): for a group send with a non-empty trimmed body and
the selected peer among the recipients, the locally-synthesized message
(sender = current user, created = "now", body = the sent text) is
prepended to the Messages Store whenever the dispatch settles — on the
success and the failure path alike (the thunk promise resolves in both
cases); the inbox merge happens only on success, the failure path reports
and leaves the inbox unchanged, and the search results are cleared in
both cases. -/
theorem C4_theorem (inbox : InboxState) (messages : MessagesState)
    (searchResults : List UserSearchResult) (groupMessage : String)
    (selectedUsers : List UserSearchResult) (currentUser : CurrentUser)
    (outcome : Except String (List InboxEntry))
    (h1 : jsTrim groupMessage ≠ "") (h2 : selectedUsers.isEmpty = false)
    (h3 : selectedUsers.any
      (fun user => some user.username = inbox.selectedUser) = true) :
    (handleSubmit inbox messages searchResults groupMessage selectedUsers
        currentUser outcome).2.1 =
      addMessageToList messages
        { id := none, sender := currentUser.username,
          sender_img := currentUser.profileImage, created := "now",
          message := groupMessage } ∧
    (∀ entries, outcome = .ok entries →
      (handleSubmit inbox messages searchResults groupMessage selectedUsers
          currentUser outcome).1 =
        (createGroupMessagesFulfilled inbox entries).1) ∧
    (∀ e, outcome = .error e →
      (handleSubmit inbox messages searchResults groupMessage selectedUsers
          currentUser outcome).1 = inbox ∧
      (handleSubmit inbox messages searchResults groupMessage selectedUsers
          currentUser outcome).2.2.2 = ["Failed to send messages"]) ∧
    (handleSubmit inbox messages searchResults groupMessage selectedUsers
        currentUser outcome).2.2.1 = [] := by
  unfold handleSubmit
  rw [if_neg (by simp [h1, h2])]
  refine ⟨by simp [h3, addMessageToList], ?_, ?_, by cases outcome <;> rfl⟩
  · intro entries hent; subst hent; rfl
  · intro e he; subst he; exact ⟨rfl, rfl⟩

/-- Claim C4 witness: the theorem applied to a failing group send to
recipient "bob" while "bob" is the selected peer: the optimistic message
is prepended although the send failed. -/
theorem C4_witness :
    jsTrim "yo" ≠ "" ∧ ([bobUserSel].isEmpty = false) ∧
    ([bobUserSel].any
      (fun user => some user.username = bobSelectedState.selectedUser) = true) ∧
    (handleSubmit bobSelectedState messagesInitialState [] "yo" [bobUserSel]
        sampleCurrentUser (.error "Network Error")).2.1 =
      addMessageToList messagesInitialState
        { id := none, sender := sampleCurrentUser.username,
          sender_img := sampleCurrentUser.profileImage, created := "now",
          message := "yo" } :=
  ⟨by decide, by decide, by decide,
   (C4_theorem bobSelectedState messagesInitialState [] "yo" [bobUserSel]
      sampleCurrentUser (.error "Network Error")
      (by decide) (by decide) (by decide)).1⟩

/-- Claim C4 counterexample: the group send fails (failure toast, inbox
untouched) yet the locally-synthesized message is still prepended to the
messages list, contradicting the claim that the failure path skips the
optimistic prepend. -/
theorem C4_counterexample :
    (handleSubmit bobSelectedState messagesInitialState [] "yo" [bobUserSel]
        sampleCurrentUser (.error "Network Error")).2.2.2 =
      ["Failed to send messages"] ∧
    (handleSubmit bobSelectedState messagesInitialState [] "yo" [bobUserSel]
        sampleCurrentUser (.error "Network Error")).1 = bobSelectedState ∧
    (handleSubmit bobSelectedState messagesInitialState [] "yo" [bobUserSel]
        sampleCurrentUser (.error "Network Error")).2.1.list =
      [{ id := none, sender := "alice", sender_img := "", created := "now",
         message := "yo" }] := by
  decide

/-- Claim C5 (amended): provided the starting list and every merged batch
are duplicate-free in ids, every sequence of `mergeEntries` calls keeps
the inbox list duplicate-free in ids; and after the most recent merge its
batch stands at the front of the list, in merge order, ahead of the
surviving untouched entries. -/
theorem C5_theorem (batches : List (List InboxEntry)) (l : List InboxEntry)
    (hb : ∀ b ∈ batches, (b.map (fun e => e.id)).Nodup)
    (hl : (l.map (fun e => e.id)).Nodup) :
    ((applyMerges batches l).map (fun e => e.id)).Nodup ∧
    ∀ b : List InboxEntry, applyMerges (batches ++ [b]) l =
      b ++ (applyMerges batches l).filter
        (fun e => !((b.map (fun i => i.id)).contains e.id)) :=
  ⟨applyMerges_ids_nodup batches l hb hl,
   fun b => applyMerges_concat batches b l⟩

/-- Claim C5 witness: the theorem applied to the singleton batch sequence
merging carol's row into a list holding bob's row. -/
theorem C5_witness :
    (∀ b ∈ [[carolEntry]], (b.map (fun e => e.id)).Nodup) ∧
    (([bobEntry].map (fun e => e.id)).Nodup) ∧
    ((applyMerges [[carolEntry]] [bobEntry]).map (fun e => e.id)).Nodup :=
  ⟨by decide, by decide,
   (C5_theorem [[carolEntry]] [bobEntry] (by decide) (by decide)).1⟩

/-- Claim C5 counterexample: starting from a list that already repeats an
id, a `mergeEntries` call under a fresh id leaves the duplicate in place,
so the claim quantified over every starting list is false. -/
theorem C5_counterexample :
    ¬ (((applyMerges [[carolEntry]] [bobEntry, bobEntry]).map
        (fun e => e.id)).Nodup) := by
  decide

/-- Claim C6 (amended): the outer-casing-after-inner-casing round-trip is
the identity on every value whose keys are all fixed points of
camelCase-after-snakeCase and collision-free under snake_casing (as the
repository's camelCase payload keys are); keys already in another spelling,
such as snake_case ones, are rewritten rather than restored. -/
theorem C6_theorem (v : JSValue) (h : goodVal v = true) :
    camelCaseObject (snakeCaseObject v) = v :=
  roundVal v h

/-- Claim C6 witness: the theorem applied to a nested value with camelCase
keys, an array and scalar leaves. -/
theorem C6_witness :
    goodVal goodSample = true ∧
    camelCaseObject (snakeCaseObject goodSample) = goodSample :=
  ⟨by decide, C6_theorem goodSample (by decide)⟩

/-- Claim C6 counterexample: a key already in snake_case spelling does not
round-trip — `with_user` comes back as `withUser` — so the round-trip is
not the identity on the key level of every value. -/
theorem C6_counterexample :
    topKeys (camelCaseObject (snakeCaseObject snakeKeySample)) ≠
      topKeys snakeKeySample := by
  decide

/-- Claim C7 (amended): every messenger service operation other than the
account-profile fetch re-raises, on a structured (object or array typed)
error body, an error carrying `processedData = camelCaseObject(body)`, and
re-raises the original failure unchanged otherwise; `getAccountService`
alone has no catch handler and re-raises the original failure unchanged in
every case. -/
theorem C7_theorem (op : ApiOperation) (e : JSError)
    (hop : op ≠ ApiOperation.getAccount) :
    (∀ d : JSValue, e.responseData = some d → isStructuredData (some d) = true →
      serviceFailure op e =
        { base := e, processedData := some (camelCaseObject d) }) ∧
    (isStructuredData e.responseData = false →
      serviceFailure op e = { base := e, processedData := none }) ∧
    serviceFailure ApiOperation.getAccount e =
      { base := e, processedData := none } := by
  refine ⟨?_, ?_, rfl⟩
  · intro d hd hs
    cases op <;> first
      | exact absurd rfl hop
      | (simp only [serviceFailure, processAndThrowError, hd]
         cases d <;> simp_all [isStructuredData, camelCaseObject])
  · intro hns
    cases op <;> first
      | exact absurd rfl hop
      | (simp only [serviceFailure, processAndThrowError]
         cases hd : e.responseData with
         | none => rfl
         | some d => rw [hd] at hns; cases d <;> simp_all [isStructuredData])

/-- Claim C7 witness: the theorem applied to the inbox-list operation and
a failure with a structured `error_code` body. -/
theorem C7_witness :
    ApiOperation.fetchInboxList ≠ ApiOperation.getAccount ∧
    sampleJSError.responseData =
      some (.objv (.cons "error_code" (.strv "invalid") .nil)) ∧
    isStructuredData (some (JSValue.objv
      (.cons "error_code" (.strv "invalid") .nil))) = true ∧
    serviceFailure ApiOperation.fetchInboxList sampleJSError =
      { base := sampleJSError,
        processedData := some (camelCaseObject
          (.objv (.cons "error_code" (.strv "invalid") .nil))) } :=
  ⟨by decide, rfl, rfl,
   (C7_theorem ApiOperation.fetchInboxList sampleJSError (by decide)).1
     (.objv (.cons "error_code" (.strv "invalid") .nil)) rfl rfl⟩

/-- Claim C7 counterexample: the account-profile fetch, failing with a
structured error body, re-raises the original failure with no
`processedData`, contradicting the claim quantified over every operation. -/
theorem C7_counterexample :
    isStructuredData sampleJSError.responseData = true ∧
    serviceFailure ApiOperation.getAccount sampleJSError =
      { base := sampleJSError, processedData := none } :=
  ⟨rfl, rfl⟩

/-- Claim C8: setting the search query to a non-empty string and clearing
it before the 500 ms debounce delay elapses (page number 1) yields exactly
one dispatched fetch — the immediate empty-query page-1 one; the debounce
timer for the non-empty query is cancelled and never fires. -/
theorem C8_theorem (query : String) (hq : query ≠ "") (d : Nat)
    (hd : d < 500) :
    runSearchEffect none 1 [(0, query), (d, "")] =
      [{ time := d, pageNumber := 1, searchQuery := "" }] := by
  have h1 : ¬ (0 + 500 ≤ d) := by omega
  simp [runSearchEffect, hq, h1]

/-- Claim C8 witness: the theorem applied to query "bob" cleared after
100 ms. -/
theorem C8_witness :
    ("bob" : String) ≠ "" ∧ 100 < 500 ∧
    runSearchEffect none 1 [(0, "bob"), (100, "")] =
      [{ time := 100, pageNumber := 1, searchQuery := "" }] :=
  ⟨by decide, by decide, C8_theorem "bob" (by decide) 100 (by decide)⟩

/-- Claim C9 (amended): the empty-query short-circuit lives in the modal's
`handleSearch`, which dispatches nothing for an empty query and dispatches
`searchUsers(query)` for a non-empty one; the `searchUsers` thunk itself
has no guard and issues the network call even for the empty query. -/
theorem C9_theorem (query : String) (hq : query ≠ "") :
    searchUsersThunkRequest "" = some "user/?search=" ∧
    handleSearchRequest "" = none ∧
    handleSearchRequest query = some ("user/?search=" ++ query) := by
  refine ⟨rfl, rfl, ?_⟩
  simp [handleSearchRequest, handleSearch, hq, searchUsersThunkRequest]

/-- Claim C9 witness: the theorem applied to the query "ali". -/
theorem C9_witness :
    ("ali" : String) ≠ "" ∧
    (searchUsersThunkRequest "" = some "user/?search=" ∧
      handleSearchRequest "" = none ∧
      handleSearchRequest "ali" = some ("user/?search=" ++ "ali")) :=
  ⟨by decide, C9_theorem "ali" (by decide)⟩

/-- Claim C9 counterexample: invoking the `searchUsers` thunk with the
empty query does issue a network request, and a fulfilled response
overwrites the search results, contradicting the claimed short-circuit in
the store operation itself. -/
theorem C9_counterexample :
    (searchUsersThunkRequest "").isSome = true ∧
    searchUsersFulfilled sampleUserState [{ username := "zed" }] ≠
      sampleUserState := by
  decide

/-- Claim C10: a successful page-1 inbox load returning an empty results
list replaces `items` with the empty list and leaves `selectedUser`
exactly as it was. -/
theorem C10_theorem (s : InboxState) (numPages num_pages : Option Nat) :
    (fetchInboxListFulfilled s
        { results := [], numPages := numPages, num_pages := num_pages }
        1).selectedUser = s.selectedUser ∧
    (fetchInboxListFulfilled s
        { results := [], numPages := numPages, num_pages := num_pages }
        1).list = [] := by
  unfold fetchInboxListFulfilled
  simp

end Messenger
